import Mathlib

/-!
Verification of the WakeOnLan repository (src/wake_on_lan.c, src/WakeOnLan.c).

The C sources are shallowly embedded: C strings become `List Char` (reading
past the end of the list yields the NUL character, matching a NUL-terminated
buffer), machine integers become `Nat`/`Int` with explicit `% 2^w` where the
C code truncates, and the fallible socket calls of `wake_on_lan` become an
environment record of call outcomes plus an event trace.
-/

namespace WOL

/-- The NUL character terminating a C string. -/
def nulChar : Char := Char.ofNat 0

/-- Reading `s[i]` from a NUL-terminated C buffer: past the end we read NUL. -/
def charAt (s : List Char) (i : Nat) : Char := s.getD i nulChar

/-- Numeric value of a character as a digit (0-9, A-Z, a-z as 10..35);
the sentinel 99 marks every non-alphanumeric character as a non-digit. -/
def digitVal (c : Char) : Nat :=
  if '0' ≤ c ∧ c ≤ '9' then c.toNat - '0'.toNat
  else if 'A' ≤ c ∧ c ≤ 'Z' then c.toNat - 'A'.toNat + 10
  else if 'a' ≤ c ∧ c ≤ 'z' then c.toNat - 'a'.toNat + 10
  else 99

/-- UINTMAX_MAX for the 64-bit `uintmax_t` used by `strtoumax`. -/
def UINTMAX_MAX : Nat := 2 ^ 64 - 1

/-- Digit-run scanner of `strtoumax`: starting at index `i`, consume digits of
the given base, accumulating `acc * base + digit`; returns the accumulated
value and the index one past the last digit consumed (the `endptr`). -/
def scanDigits (s : List Char) (base : Nat) (i : Nat) (acc : Nat) : Nat × Nat :=
  if _h : i < s.length ∧ digitVal (charAt s i) < base then
    scanDigits s base (i + 1) (acc * base + digitVal (charAt s i))
  else (acc, i)
termination_by s.length - i
decreasing_by omega

/-- On overflow `strtoumax` returns UINTMAX_MAX; the scanned end index is kept. -/
def clampU (p : Nat × Nat) : Nat × Nat := (min p.1 UINTMAX_MAX, p.2)

/-- Model of C `strtoumax(s + i, &endptr, base)`, returning the value and the
index of `endptr`. Base 0 auto-detects: a leading `0x`/`0X` followed by a hex
digit means hexadecimal, otherwise a leading `0` means octal, otherwise
decimal. Leading whitespace and sign handling of the C function is omitted:
both call sites in this repository invoke it directly at a character that is
either a decimal digit or the start of the token. -/
def strtoumaxFrom (s : List Char) (i : Nat) (base : Nat) : Nat × Nat :=
  if base = 0 then
    if charAt s i = '0' then
      if (charAt s (i + 1) = 'x' ∨ charAt s (i + 1) = 'X') ∧ digitVal (charAt s (i + 2)) < 16 then
        clampU (scanDigits s 16 (i + 2) 0)
      else clampU (scanDigits s 8 i 0)
    else clampU (scanDigits s 10 i 0)
  else if base = 16 then
    if charAt s i = '0' ∧ (charAt s (i + 1) = 'x' ∨ charAt s (i + 1) = 'X') ∧
        digitVal (charAt s (i + 2)) < 16 then
      clampU (scanDigits s 16 (i + 2) 0)
    else clampU (scanDigits s 16 i 0)
  else if 2 ≤ base ∧ base ≤ 36 then clampU (scanDigits s base i 0)
  else (0, i)

theorem scanDigits_ge (s : List Char) (base i acc : Nat) :
    i ≤ (scanDigits s base i acc).2 := by
  rw [scanDigits]
  split
  · exact Nat.le_of_succ_le (scanDigits_ge s base (i + 1) _)
  · exact Nat.le_refl i
termination_by s.length - i
decreasing_by omega

theorem strtoumaxFrom_ge (s : List Char) (i base : Nat) :
    i ≤ (strtoumaxFrom s i base).2 := by
  unfold strtoumaxFrom clampU
  split_ifs <;> simp <;>
    exact le_trans (by omega) (scanDigits_ge s _ _ 0)

/-- Main scanning loop of `ip_cstr_to_number` (src/wake_on_lan.c lines
199-211): scan left to right at most `sizeof_ip` characters; at each decimal
digit call `strtoumax`, store the value truncated to `uint32_t` as the next
octet (at most 4), resume after the token, and stop unless the character at
`endptr` is a dot. `acc` is the list of octets collected so far. -/
def ipLoop (s : List Char) (sizeof_ip base : Nat) (i : Nat) (acc : List Nat) : List Nat :=
  if hg : i < sizeof_ip ∧ charAt s i ≠ nulChar ∧ acc.length < 4 then
    if hd : '0' ≤ charAt s i ∧ charAt s i ≤ '9' then
      if hdot : charAt s (strtoumaxFrom s i base).2 = '.' then
        ipLoop s sizeof_ip base ((strtoumaxFrom s i base).2 + 1)
          (acc ++ [(strtoumaxFrom s i base).1 % 2 ^ 32])
      else acc ++ [(strtoumaxFrom s i base).1 % 2 ^ 32]
    else ipLoop s sizeof_ip base (i + 1) acc
  else acc
termination_by sizeof_ip - i
decreasing_by
  · have h1 := strtoumaxFrom_ge s i base
    omega
  · omega

/-- Model of `ip_cstr_to_number` (src/wake_on_lan.c lines 191-223): collect
up to four numeric parts, then assemble them by the count collected.  The
shifts and additions are performed in `uint32_t`, hence the `% 2^32`; the
`int64_t` result is `-1` exactly in the `default` case of the switch. -/
def ip_cstr_to_number (ip : List Char) (sizeof_ip : Nat) (base : Nat) : Int :=
  let ip_octets := ipLoop ip sizeof_ip base 0 []
  match ip_octets with
  | [a, b, c, d] => ((a * 2 ^ 24 % 2 ^ 32 + b * 2 ^ 16 % 2 ^ 32 + c * 2 ^ 8 % 2 ^ 32 + d) % 2 ^ 32 : Nat)
  | [a, b, c] => ((a * 2 ^ 24 % 2 ^ 32 + b * 2 ^ 16 % 2 ^ 32 + c) % 2 ^ 32 : Nat)
  | [a, b] => ((a * 2 ^ 24 % 2 ^ 32 + b) % 2 ^ 32 : Nat)
  | [a] => (a : Nat)
  | _ => -1

/-- Main loop of `mac_cstr_to_number` (src/wake_on_lan.c lines 231-248):
scan at most 17 characters, stop at NUL or once 12 hex digits were consumed;
each hex digit (0-9, A-F, a-f) shifts the accumulator left by 4 bits and adds
its value, every other character is skipped. Returns the accumulator and the
number of hex digits consumed. -/
def macLoop (s : List Char) (i : Nat) (no : Nat) (hex_letters : Nat) : Nat × Nat :=
  if hg : i < 17 ∧ hex_letters < 12 ∧ charAt s i ≠ nulChar then
    if '0' ≤ charAt s i ∧ charAt s i ≤ '9' then
      macLoop s (i + 1) (no * 16 + ((charAt s i).toNat - '0'.toNat)) (hex_letters + 1)
    else if 'A' ≤ charAt s i ∧ charAt s i ≤ 'F' then
      macLoop s (i + 1) (no * 16 + ((charAt s i).toNat + 10 - 'A'.toNat)) (hex_letters + 1)
    else if 'a' ≤ charAt s i ∧ charAt s i ≤ 'f' then
      macLoop s (i + 1) (no * 16 + ((charAt s i).toNat + 10 - 'a'.toNat)) (hex_letters + 1)
    else macLoop s (i + 1) no hex_letters
  else (no, hex_letters)
termination_by 17 - i
decreasing_by all_goals omega

/-- Model of `mac_cstr_to_number` (src/wake_on_lan.c lines 225-258): the call
fails with `-1` unless exactly 12 hex digits were consumed. -/
def mac_cstr_to_number (mac_cstr : List Char) : Int :=
  let r := macLoop mac_cstr 0 0 0
  if r.2 ≠ 12 then -1 else (r.1 : Nat)

/-! Magic packet construction (src/wake_on_lan.c lines 323-439).
The GET_BYTE_k macros first cast to an unsigned type of at least 8(k+1) bits
and then shift and mask, hence the explicit truncations below. -/

/-- Macro GET_BYTE_0: least significant byte, after a cast to `uint8_t`. -/
def GET_BYTE_0 (no : Nat) : Nat := no % 2 ^ 8 % 2 ^ 8

/-- Macro GET_BYTE_1: byte 1, after a cast to `uint16_t`. -/
def GET_BYTE_1 (no : Nat) : Nat := no % 2 ^ 16 / 2 ^ 8 % 2 ^ 8

/-- Macro GET_BYTE_2: byte 2, after a cast to `uint32_t`. -/
def GET_BYTE_2 (no : Nat) : Nat := no % 2 ^ 32 / 2 ^ 16 % 2 ^ 8

/-- Macro GET_BYTE_3: byte 3, after a cast to `uint32_t`. -/
def GET_BYTE_3 (no : Nat) : Nat := no % 2 ^ 32 / 2 ^ 24 % 2 ^ 8

/-- Macro GET_BYTE_4: byte 4, after a cast to `uint64_t`. -/
def GET_BYTE_4 (no : Nat) : Nat := no % 2 ^ 64 / 2 ^ 32 % 2 ^ 8

/-- Macro GET_BYTE_5: byte 5, after a cast to `uint64_t`. -/
def GET_BYTE_5 (no : Nat) : Nat := no % 2 ^ 64 / 2 ^ 40 % 2 ^ 8

/-- Fill loop of `wake_on_lan` (src/wake_on_lan.c lines 429-439): for
`i = 1 .. 16` write the six MAC bytes, most significant first, at offsets
`6 * i .. 6 * i + 5` of the packet buffer. -/
def wolFillLoop (mac : Nat) (i : Nat) (data : List Nat) : List Nat :=
  if i ≤ 16 then
    wolFillLoop mac (i + 1)
      ((((((data.set (i * 6) (GET_BYTE_5 mac)).set (i * 6 + 1) (GET_BYTE_4 mac)).set
        (i * 6 + 2) (GET_BYTE_3 mac)).set (i * 6 + 3) (GET_BYTE_2 mac)).set
        (i * 6 + 4) (GET_BYTE_1 mac)).set (i * 6 + 5) (GET_BYTE_0 mac))
  else data
termination_by 17 - i
decreasing_by omega

/-- The 102-byte buffer `data` built by `wake_on_lan` (src/wake_on_lan.c lines
323-329 and 422-439): six 0xFF bytes, then the fill loop writes the MAC copies
into bytes 6-101. The C array leaves bytes 6-101 uninitialized before the
loop; the loop overwrites all of them, so they are modelled as 0 initially. -/
def wolPacket (mac : Nat) : List Nat :=
  wolFillLoop mac 1 (List.replicate 6 0xFF ++ List.replicate 96 0)

theorem GET_BYTE_0_eq (no : Nat) : GET_BYTE_0 no = no % 2 ^ 8 := by
  simp [GET_BYTE_0, Nat.mod_mod_of_dvd _ dvd_rfl]

theorem GET_BYTE_1_eq (no : Nat) : GET_BYTE_1 no = no / 2 ^ 8 % 2 ^ 8 := by
  unfold GET_BYTE_1
  rw [show (2 : Nat) ^ 16 = 2 ^ 8 * 2 ^ 8 by norm_num, Nat.mod_mul_right_div_self,
    Nat.mod_mod_of_dvd _ dvd_rfl]

theorem GET_BYTE_2_eq (no : Nat) : GET_BYTE_2 no = no / 2 ^ 16 % 2 ^ 8 := by
  unfold GET_BYTE_2
  rw [show (2 : Nat) ^ 32 = 2 ^ 16 * 2 ^ 16 by norm_num, Nat.mod_mul_right_div_self,
    Nat.mod_mod_of_dvd _ (by norm_num)]

theorem GET_BYTE_3_eq (no : Nat) : GET_BYTE_3 no = no / 2 ^ 24 % 2 ^ 8 := by
  unfold GET_BYTE_3
  rw [show (2 : Nat) ^ 32 = 2 ^ 24 * 2 ^ 8 by norm_num, Nat.mod_mul_right_div_self,
    Nat.mod_mod_of_dvd _ dvd_rfl]

theorem GET_BYTE_4_eq (no : Nat) : GET_BYTE_4 no = no / 2 ^ 32 % 2 ^ 8 := by
  unfold GET_BYTE_4
  rw [show (2 : Nat) ^ 64 = 2 ^ 32 * 2 ^ 32 by norm_num, Nat.mod_mul_right_div_self,
    Nat.mod_mod_of_dvd _ (by norm_num)]

theorem GET_BYTE_5_eq (no : Nat) : GET_BYTE_5 no = no / 2 ^ 40 % 2 ^ 8 := by
  unfold GET_BYTE_5
  rw [show (2 : Nat) ^ 64 = 2 ^ 40 * 2 ^ 24 by norm_num, Nat.mod_mul_right_div_self,
    Nat.mod_mod_of_dvd _ (by norm_num)]

/-! Model of the `wake_on_lan` entry point (src/wake_on_lan.c lines 319-513).

The outcomes of the OS socket calls are an environment record (one field per
call site), and the observable behaviour is an event trace: one event per OS
call executed and one event per write into the optional `wake_on_lan_t`
diagnostics record. The boolean `wolP` says whether a diagnostics record was
supplied (the `wol` pointer being non-NULL); the writes guarded by
`if(wol)` in the C code emit events only when it is true. -/

/-- Return values of `wake_on_lan` (enum `wake_on_lan_errors_e`). -/
def WAKE_ON_LAN_ERRORS_NONE : Nat := 0

/-- Enum ordinal 1. -/
def WAKE_ON_LAN_ERRORS_UNKNOWN : Nat := 1

/-- Enum ordinal 2. -/
def WAKE_ON_LAN_ERRORS_IP : Nat := 2

/-- Enum ordinal 3. -/
def WAKE_ON_LAN_ERRORS_MAC : Nat := 3

/-- Enum ordinal 4. -/
def WAKE_ON_LAN_ERRORS_WSA_STARTUP : Nat := 4

/-- Enum ordinal 5. -/
def WAKE_ON_LAN_ERRORS_WINSOCK : Nat := 5

/-- Enum ordinal 6. -/
def WAKE_ON_LAN_ERRORS_SOCKET_CREATION : Nat := 6

/-- Enum ordinal 7. -/
def WAKE_ON_LAN_ERRORS_SOCKET_OPTION : Nat := 7

/-- Enum ordinal 8. -/
def WAKE_ON_LAN_ERRORS_SEND : Nat := 8

/-- Enum ordinal 9. -/
def WAKE_ON_LAN_ERRORS_SOCKET_CLOSE : Nat := 9

/-- Observable events of one `wake_on_lan` call: the parser invocations, the
OS socket calls, and the writes into the optional diagnostics record. -/
inductive Event where
  | ipParse : Event
  | macParse : Event
  | wsaStartup : Event
  | socketCreate : Event
  | setSockOpt : Event
  | sendto (addr : List Nat) (portBytes : List Nat) (payload : List Nat) : Event
  | close : Event
  | wsaCleanup : Event
  | writeIp (v : Nat) : Event
  | writeMac (v : Int) : Event
  | writeLastError (v : Int) : Event
  | writeReturn (v : Nat) : Event
  deriving DecidableEq, Repr

/-- A write into the diagnostics record happens only when it was supplied. -/
def wolWrite (wolP : Bool) (e : Event) : List Event := if wolP then [e] else []

/-- Conversion of the parsed `int64_t` IP to the `uint32_t` field/argument. -/
def uint32OfInt (x : Int) : Nat := (x % 2 ^ 32).toNat

/-- The four bytes of a 32-bit value in network byte order, as produced by
`htonl`. -/
def htonlBytes (x : Nat) : List Nat :=
  [x / 2 ^ 24 % 256, x / 2 ^ 16 % 256, x / 2 ^ 8 % 256, x % 256]

/-- The two bytes of a 16-bit value in network byte order, as produced by
`htons`. -/
def htonsBytes (x : Nat) : List Nat := [x / 2 ^ 8 % 256, x % 256]

/-- Outcomes of the OS calls made by the Windows build of `wake_on_lan`,
one field per call site; the `...Error` fields are what `WSAGetLastError()`
returns right after the corresponding call fails. -/
structure EnvWin where
  wsaStartupResult : Int
  wsaStartupError : Int
  wVersion : Nat
  socketOk : Bool
  socketError : Int
  setsockoptFails : Bool
  setsockoptError : Int
  sendtoResult : Int
  sendtoError : Int
  closeFails : Bool
  closeError : Int

/-- Teardown after the do-while block on Windows (src/wake_on_lan.c lines
495-511): close the socket when it was created, overwriting the result with
SOCKET_CLOSE if closing fails; always call WSACleanup; finally store the
return value in the diagnostics record. -/
def finishWin (env : EnvWin) (wolP : Bool) (rv : Nat) (t : List Event) (created : Bool) :
    Nat × List Event :=
  if created then
    if env.closeFails then
      (WAKE_ON_LAN_ERRORS_SOCKET_CLOSE,
        t ++ [Event.close] ++ wolWrite wolP (Event.writeLastError env.closeError) ++
          [Event.wsaCleanup] ++ wolWrite wolP (Event.writeReturn WAKE_ON_LAN_ERRORS_SOCKET_CLOSE))
    else
      (rv, t ++ [Event.close, Event.wsaCleanup] ++ wolWrite wolP (Event.writeReturn rv))
  else
    (rv, t ++ [Event.wsaCleanup] ++ wolWrite wolP (Event.writeReturn rv))

/-- Windows build of `wake_on_lan` (src/wake_on_lan.c lines 319-513 with
`_WIN32` defined), returning the result code and the event trace. -/
def wake_on_lan_win (env : EnvWin) (wolP : Bool) (ip_v4_cstr : List Char) (port : Nat)
    (mac_cstr : List Char) : Nat × List Event :=
  let ip_v4 := ip_cstr_to_number ip_v4_cstr 13 0
  if ip_v4 = -1 then
    finishWin env wolP WAKE_ON_LAN_ERRORS_IP
      ([Event.ipParse] ++ wolWrite wolP (Event.writeLastError (-1))) false
  else
    let t1 := [Event.ipParse] ++ wolWrite wolP (Event.writeIp (uint32OfInt ip_v4))
    let mac := mac_cstr_to_number mac_cstr
    if mac = -1 then
      finishWin env wolP WAKE_ON_LAN_ERRORS_MAC
        (t1 ++ [Event.macParse] ++ wolWrite wolP (Event.writeLastError (-1))) false
    else
      let t2 := t1 ++ [Event.macParse] ++ wolWrite wolP (Event.writeMac mac)
      if env.wsaStartupResult ≠ 0 then
        finishWin env wolP WAKE_ON_LAN_ERRORS_WSA_STARTUP
          (t2 ++ [Event.wsaStartup] ++ wolWrite wolP (Event.writeLastError env.wsaStartupError))
          false
      else
        let t3 := t2 ++ [Event.wsaStartup]
        let available_major := env.wVersion % 256
        let available_minor := env.wVersion / 256 % 256
        if available_major ≠ 2 ∨ available_minor ≠ 2 then
          finishWin env wolP WAKE_ON_LAN_ERRORS_WINSOCK
            (t3 ++ wolWrite wolP
              (Event.writeLastError (available_major * 256 + available_minor))) false
        else
          let t4 := t3 ++ [Event.socketCreate]
          if env.socketOk = false then
            finishWin env wolP WAKE_ON_LAN_ERRORS_SOCKET_CREATION
              (t4 ++ wolWrite wolP (Event.writeLastError env.socketError)) false
          else
            let t5 := t4 ++ [Event.setSockOpt]
            if env.setsockoptFails then
              finishWin env wolP WAKE_ON_LAN_ERRORS_SOCKET_OPTION
                (t5 ++ wolWrite wolP (Event.writeLastError env.setsockoptError)) true
            else
              let t6 := t5 ++ [Event.sendto (htonlBytes (uint32OfInt ip_v4))
                (htonsBytes (port % 2 ^ 16)) (wolPacket mac.toNat)]
              if env.sendtoResult = -1 then
                finishWin env wolP WAKE_ON_LAN_ERRORS_SEND
                  (t6 ++ wolWrite wolP (Event.writeLastError env.sendtoError)) true
              else
                finishWin env wolP WAKE_ON_LAN_ERRORS_NONE t6 true

/-- Outcomes of the OS calls made by the POSIX build of `wake_on_lan`;
the `...Errno` fields are the value of `errno` right after the corresponding
call fails. -/
structure EnvPosix where
  socketOk : Bool
  socketErrno : Int
  setsockoptFails : Bool
  setsockoptErrno : Int
  sendtoResult : Int

/-- Teardown after the do-while block on POSIX (src/wake_on_lan.c lines
505-511): `close(sockfd)` is called unconditionally (even when the socket was
never created, closing the initial -1 descriptor) and its result is ignored;
finally the return value is stored in the diagnostics record. -/
def finishPosix (wolP : Bool) (rv : Nat) (t : List Event) : Nat × List Event :=
  (rv, t ++ [Event.close] ++ wolWrite wolP (Event.writeReturn rv))

/-- POSIX build of `wake_on_lan` (src/wake_on_lan.c lines 319-513 without
`_WIN32`), returning the result code and the event trace. On send failure the
value stored in `last_error` is the `sendto` return value itself. -/
def wake_on_lan_posix (env : EnvPosix) (wolP : Bool) (ip_v4_cstr : List Char) (port : Nat)
    (mac_cstr : List Char) : Nat × List Event :=
  let ip_v4 := ip_cstr_to_number ip_v4_cstr 13 0
  if ip_v4 = -1 then
    finishPosix wolP WAKE_ON_LAN_ERRORS_IP
      ([Event.ipParse] ++ wolWrite wolP (Event.writeLastError (-1)))
  else
    let t1 := [Event.ipParse] ++ wolWrite wolP (Event.writeIp (uint32OfInt ip_v4))
    let mac := mac_cstr_to_number mac_cstr
    if mac = -1 then
      finishPosix wolP WAKE_ON_LAN_ERRORS_MAC
        (t1 ++ [Event.macParse] ++ wolWrite wolP (Event.writeLastError (-1)))
    else
      let t2 := t1 ++ [Event.macParse] ++ wolWrite wolP (Event.writeMac mac)
      let t4 := t2 ++ [Event.socketCreate]
      if env.socketOk = false then
        finishPosix wolP WAKE_ON_LAN_ERRORS_SOCKET_CREATION
          (t4 ++ wolWrite wolP (Event.writeLastError env.socketErrno))
      else
        let t5 := t4 ++ [Event.setSockOpt]
        if env.setsockoptFails then
          finishPosix wolP WAKE_ON_LAN_ERRORS_SOCKET_OPTION
            (t5 ++ wolWrite wolP (Event.writeLastError env.setsockoptErrno))
        else
          let t6 := t5 ++ [Event.sendto (htonlBytes (uint32OfInt ip_v4))
            (htonsBytes (port % 2 ^ 16)) (wolPacket mac.toNat)]
          if env.sendtoResult < 0 then
            finishPosix wolP WAKE_ON_LAN_ERRORS_SEND
              (t6 ++ wolWrite wolP (Event.writeLastError env.sendtoResult))
          else
            finishPosix wolP WAKE_ON_LAN_ERRORS_NONE t6

/-! Model of the CLI program `main` (src/WakeOnLan.c lines 49-138). -/

/-- The local variables of `main` that the argument loop mutates. -/
structure CliState where
  ip : List Char
  port : Nat
  mac : List Char
  parameter_i : Bool
  parameter_m : Bool
  help : Bool
  silent : Bool
  deriving Repr, DecidableEq

/-- Initial values of the locals of `main`: zeroed 30-byte buffers for ip and
mac, default port 60000, all flags false. -/
def cliInit : CliState :=
  { ip := [], port := 60000, mac := [], parameter_i := false, parameter_m := false,
    help := false, silent := false }

/-- Reading `argv[i]`; the loop of `main` can read one slot past the last
argument after a trailing `-i`, `-p` or `-m`, modelled as an empty string. -/
def argAt (argv : List (List Char)) (i : Nat) : List Char := argv.getD i []

/-- Argument loop of `main` (src/WakeOnLan.c lines 64-98): each `-i`, `-p`,
`-m` consumes the following argument (`strncpy` into a zeroed 30-byte buffer
keeps at most 29 characters; the port is parsed with `strtoumax` base 10 and
truncated to `uint16_t`), `-h` and `-s` set flags, everything else is
ignored. -/
def cliLoop (argv : List (List Char)) (i : Nat) (st : CliState) : CliState :=
  if i < argv.length then
    if charAt (argAt argv i) 0 = '-' then
      if charAt (argAt argv i) 1 = 'i' then
        cliLoop argv (i + 2)
          { st with parameter_i := true, ip := (argAt argv (i + 1)).take 29 }
      else if charAt (argAt argv i) 1 = 'p' then
        cliLoop argv (i + 2)
          { st with port := (strtoumaxFrom (argAt argv (i + 1)) 0 10).1 % 2 ^ 16 }
      else if charAt (argAt argv i) 1 = 'm' then
        cliLoop argv (i + 2)
          { st with parameter_m := true, mac := (argAt argv (i + 1)).take 29 }
      else if charAt (argAt argv i) 1 = 'h' then cliLoop argv (i + 1) { st with help := true }
      else if charAt (argAt argv i) 1 = 's' then cliLoop argv (i + 1) { st with silent := true }
      else cliLoop argv (i + 1) st
    else cliLoop argv (i + 1) st
  else st
termination_by argv.length - i
decreasing_by all_goals omega

/-- Model of `main` (src/WakeOnLan.c lines 49-138). `coreResult` abstracts
the value returned by the `wake_on_lan` call, which depends on the network.
The outer `return_value` is initialized to 1 (line 100); inside the
`parameter_i && parameter_m` branch the C source declares a SECOND
`int return_value` (line 104) that shadows the outer one, so the result of
`wake_on_lan` is stored only in the shadowed variable, the branch only
prints, and the function always returns the outer, never reassigned, 1. -/
def wol_main (argv : List (List Char)) (coreResult : Nat) : Nat :=
  let st := cliLoop argv 0 cliInit
  let return_value : Nat := 1
  if st.parameter_i && st.parameter_m then
    let _return_value_inner := coreResult
    return_value
  else
    -- help = true; printing only, outer return_value unchanged
    return_value

/-! Instrumented variants used to state properties of the scanning loops. -/

/-- Variant of `ipLoop` that also records, for each collected part, the index
of its first digit; `(ipLoopS ...).map Prod.snd` is exactly `ipLoop ...`. -/
def ipLoopS (s : List Char) (sizeof_ip base : Nat) (i : Nat) (acc : List (Nat × Nat)) :
    List (Nat × Nat) :=
  if hg : i < sizeof_ip ∧ charAt s i ≠ nulChar ∧ acc.length < 4 then
    if hd : '0' ≤ charAt s i ∧ charAt s i ≤ '9' then
      if hdot : charAt s (strtoumaxFrom s i base).2 = '.' then
        ipLoopS s sizeof_ip base ((strtoumaxFrom s i base).2 + 1)
          (acc ++ [(i, (strtoumaxFrom s i base).1 % 2 ^ 32)])
      else acc ++ [(i, (strtoumaxFrom s i base).1 % 2 ^ 32)]
    else ipLoopS s sizeof_ip base (i + 1) acc
  else acc
termination_by sizeof_ip - i
decreasing_by
  · have h1 := strtoumaxFrom_ge s i base
    omega
  · omega

/-- Values of the hex digit characters that the scan of `mac_cstr_to_number`
encounters, in order: positions `i .. 16`, stopping at NUL, non-hex
characters skipped. -/
def hexDigitsFrom (s : List Char) (i : Nat) : List Nat :=
  if i < 17 ∧ charAt s i ≠ nulChar then
    if '0' ≤ charAt s i ∧ charAt s i ≤ '9' then
      ((charAt s i).toNat - '0'.toNat) :: hexDigitsFrom s (i + 1)
    else if 'A' ≤ charAt s i ∧ charAt s i ≤ 'F' then
      ((charAt s i).toNat + 10 - 'A'.toNat) :: hexDigitsFrom s (i + 1)
    else if 'a' ≤ charAt s i ∧ charAt s i ≤ 'f' then
      ((charAt s i).toNat + 10 - 'a'.toNat) :: hexDigitsFrom s (i + 1)
    else hexDigitsFrom s (i + 1)
  else []
termination_by 17 - i
decreasing_by all_goals omega

/-- The socket steps 3-7 of the spec (platform init, socket creation, socket
option, send): the fallible forward steps before the unconditional
teardown. -/
def isFwdSocketStep : Event → Bool
  | Event.wsaStartup => true
  | Event.socketCreate => true
  | Event.setSockOpt => true
  | Event.sendto _ _ _ => true
  | _ => false

/-! Supporting lemmas about the scanning loops. -/

theorem ipLoop_length_le (s : List Char) (n base : Nat) :
    ∀ i (acc : List Nat), acc.length ≤ 4 → (ipLoop s n base i acc).length ≤ 4 := by
  intro i acc
  induction i, acc using ipLoop.induct s n base with
  | case1 i acc hg hd hdot ih =>
    intro _h
    rw [ipLoop, dif_pos hg, dif_pos hd, dif_pos hdot]
    exact ih (by simp; omega)
  | case2 i acc hg hd hdot =>
    intro _h
    rw [ipLoop, dif_pos hg, dif_pos hd, dif_neg hdot]
    simp
    omega
  | case3 i acc hg hd ih =>
    intro h
    rw [ipLoop, dif_pos hg, dif_neg hd]
    exact ih h
  | case4 i acc hg =>
    intro h
    rw [ipLoop, dif_neg hg]
    exact h

theorem ipLoopS_map (s : List Char) (n base : Nat) :
    ∀ i (acc : List (Nat × Nat)),
      (ipLoopS s n base i acc).map Prod.snd = ipLoop s n base i (acc.map Prod.snd) := by
  intro i acc
  induction i, acc using ipLoopS.induct s n base with
  | case1 i acc hg hd hdot ih =>
    rw [ipLoopS, dif_pos hg, dif_pos hd, dif_pos hdot, ih]
    conv_rhs => rw [ipLoop]
    rw [dif_pos (by simpa using hg), dif_pos hd, dif_pos hdot]
    simp
  | case2 i acc hg hd hdot =>
    rw [ipLoopS, dif_pos hg, dif_pos hd, dif_neg hdot]
    conv_rhs => rw [ipLoop]
    rw [dif_pos (by simpa using hg), dif_pos hd, dif_neg hdot]
    simp
  | case3 i acc hg hd ih =>
    rw [ipLoopS, dif_pos hg, dif_neg hd, ih]
    conv_rhs => rw [ipLoop]
    rw [dif_pos (by simpa using hg), dif_neg hd]
  | case4 i acc hg =>
    rw [ipLoopS, dif_neg hg]
    conv_rhs => rw [ipLoop]
    rw [dif_neg (by simpa using hg)]

theorem ipLoopS_starts (s : List Char) (n base : Nat) :
    ∀ i (acc : List (Nat × Nat)), (∀ p ∈ acc, p.1 < n) →
      ∀ p ∈ ipLoopS s n base i acc, p.1 < n := by
  intro i acc
  induction i, acc using ipLoopS.induct s n base with
  | case1 i acc hg hd hdot ih =>
    intro h
    rw [ipLoopS, dif_pos hg, dif_pos hd, dif_pos hdot]
    refine ih ?_
    intro p hp
    rcases List.mem_append.1 hp with hp | hp
    · exact h p hp
    · simp at hp
      subst hp
      exact hg.1
  | case2 i acc hg hd hdot =>
    intro h
    rw [ipLoopS, dif_pos hg, dif_pos hd, dif_neg hdot]
    intro p hp
    rcases List.mem_append.1 hp with hp | hp
    · exact h p hp
    · simp at hp
      subst hp
      exact hg.1
  | case3 i acc hg hd ih =>
    intro h
    rw [ipLoopS, dif_pos hg, dif_neg hd]
    exact ih h
  | case4 i acc hg =>
    intro h
    rw [ipLoopS, dif_neg hg]
    exact h

theorem macLoop_eq (s : List Char) :
    ∀ i no h, h ≤ 12 →
      macLoop s i no h =
        (((hexDigitsFrom s i).take (12 - h)).foldl (fun a d => a * 16 + d) no,
          min 12 (h + (hexDigitsFrom s i).length)) := by
  intro i no h
  induction i, no, h using macLoop.induct s with
  | case1 i no h hg hd ih =>
    intro _hh
    have hx : hexDigitsFrom s i = ((charAt s i).toNat - '0'.toNat) :: hexDigitsFrom s (i + 1) := by
      rw [hexDigitsFrom, if_pos ⟨hg.1, hg.2.2⟩, if_pos hd]
    rw [macLoop, dif_pos hg, if_pos hd, ih (by omega), hx]
    have ht : 12 - h = (12 - (h + 1)) + 1 := by omega
    simp [ht, List.take_succ_cons]
    omega
  | case2 i no h hg hd1 hd ih =>
    intro _hh
    have hx : hexDigitsFrom s i =
        ((charAt s i).toNat + 10 - 'A'.toNat) :: hexDigitsFrom s (i + 1) := by
      rw [hexDigitsFrom, if_pos ⟨hg.1, hg.2.2⟩, if_neg hd1, if_pos hd]
    rw [macLoop, dif_pos hg, if_neg hd1, if_pos hd, ih (by omega), hx]
    have ht : 12 - h = (12 - (h + 1)) + 1 := by omega
    simp [ht, List.take_succ_cons]
    omega
  | case3 i no h hg hd1 hd2 hd ih =>
    intro _hh
    have hx : hexDigitsFrom s i =
        ((charAt s i).toNat + 10 - 'a'.toNat) :: hexDigitsFrom s (i + 1) := by
      rw [hexDigitsFrom, if_pos ⟨hg.1, hg.2.2⟩, if_neg hd1, if_neg hd2, if_pos hd]
    rw [macLoop, dif_pos hg, if_neg hd1, if_neg hd2, if_pos hd, ih (by omega), hx]
    have ht : 12 - h = (12 - (h + 1)) + 1 := by omega
    simp [ht, List.take_succ_cons]
    omega
  | case4 i no h hg hd1 hd2 hd3 ih =>
    intro hh
    have hx : hexDigitsFrom s i = hexDigitsFrom s (i + 1) := by
      rw [hexDigitsFrom, if_pos ⟨hg.1, hg.2.2⟩, if_neg hd1, if_neg hd2, if_neg hd3]
    rw [macLoop, dif_pos hg, if_neg hd1, if_neg hd2, if_neg hd3, ih hh, hx]
  | case5 i no h hg =>
    intro hh
    rw [macLoop, dif_neg hg]
    by_cases h17 : i < 17 ∧ charAt s i ≠ nulChar
    · have h12 : h = 12 := by
        rcases h17 with ⟨ha, hb⟩
        by_contra hne
        exact hg ⟨ha, by omega, hb⟩
      subst h12
      simp
    · rw [hexDigitsFrom, if_neg h17]
      simp
      omega

/-- The datagram payload handed to `sendto` by the POSIX build is always the
magic packet built from the parsed MAC. -/
theorem posix_sendto_payload (env : EnvPosix) (wolP : Bool) (ip : List Char) (port : Nat)
    (m : List Char) (a pb d : List Nat)
    (hmem : Event.sendto a pb d ∈ (wake_on_lan_posix env wolP ip port m).2) :
    d = wolPacket (mac_cstr_to_number m).toNat := by
  simp only [wake_on_lan_posix, finishPosix, wolWrite] at hmem
  split_ifs at hmem <;> cases wolP <;> simp at hmem <;> exact hmem.2.2

set_option maxHeartbeats 1000000 in
/-- The datagram payload handed to `sendto` by the Windows build is always the
magic packet built from the parsed MAC. -/
theorem win_sendto_payload (env : EnvWin) (wolP : Bool) (ip : List Char) (port : Nat)
    (m : List Char) (a pb d : List Nat)
    (hmem : Event.sendto a pb d ∈ (wake_on_lan_win env wolP ip port m).2) :
    d = wolPacket (mac_cstr_to_number m).toNat := by
  cases wolP <;>
    simp only [wake_on_lan_win, finishWin, wolWrite, if_true, if_false,
      Bool.false_eq_true, Bool.true_eq_false, List.append_nil, List.nil_append] at hmem
  all_goals by_cases h8 : env.closeFails = true <;> (try simp [h8] at hmem)
  all_goals rcases eq_or_ne (ip_cstr_to_number ip 13 0) (-1) with h1 | h1 <;>
    (try simp [h1] at hmem)
  all_goals rcases eq_or_ne (mac_cstr_to_number m) (-1) with h2 | h2 <;> (try simp [h2] at hmem)
  all_goals rcases eq_or_ne env.wsaStartupResult 0 with h3 | h3 <;> (try simp [h3] at hmem)
  all_goals
    by_cases hv : env.wVersion % 256 ≠ 2 ∨ env.wVersion / 256 % 256 ≠ 2 <;>
      (try simp [hv] at hmem)
  all_goals by_cases h5 : env.socketOk = false <;> (try simp [h5] at hmem)
  all_goals by_cases h6 : env.setsockoptFails = true <;> (try simp [h6] at hmem)
  all_goals rcases eq_or_ne env.sendtoResult (-1) with h7 | h7 <;> (try simp [h7] at hmem)
  all_goals exact hmem.2.2

set_option maxHeartbeats 1000000 in
/-- C1: for every 48-bit MAC value, the payload built and sent by
`wake_on_lan` is exactly 102 bytes, bytes 0-5 are 0xFF, and bytes 6-101 are
16 consecutive copies of the 6 MAC bytes most significant first; for MAC
00:11:22:33:44:55 the buffer is six 0xFF bytes followed by 16 copies of
0x00, 0x11, 0x22, 0x33, 0x44, 0x55; every payload passed to the datagram
send of either build is exactly this buffer. -/
theorem c1_magic_packet :
    ∀ mac : Nat,
      (wolPacket mac).length = 102 ∧
      wolPacket mac = List.replicate 6 0xFF ++
        (List.replicate 16 [mac / 2 ^ 40 % 2 ^ 8, mac / 2 ^ 32 % 2 ^ 8, mac / 2 ^ 24 % 2 ^ 8,
          mac / 2 ^ 16 % 2 ^ 8, mac / 2 ^ 8 % 2 ^ 8, mac % 2 ^ 8]).flatten ∧
      wolPacket 0x001122334455 = List.replicate 6 0xFF ++
        (List.replicate 16 [0x00, 0x11, 0x22, 0x33, 0x44, 0x55]).flatten ∧
      (∀ (env : EnvPosix) (wolP : Bool) (ip : List Char) (port : Nat) (m : List Char)
          (a pb d : List Nat),
        Event.sendto a pb d ∈ (wake_on_lan_posix env wolP ip port m).2 →
          d = wolPacket (mac_cstr_to_number m).toNat) ∧
      (∀ (env : EnvWin) (wolP : Bool) (ip : List Char) (port : Nat) (m : List Char)
          (a pb d : List Nat),
        Event.sendto a pb d ∈ (wake_on_lan_win env wolP ip port m).2 →
          d = wolPacket (mac_cstr_to_number m).toNat) := by
  have hgen : ∀ mac : Nat, wolPacket mac = List.replicate 6 0xFF ++
      (List.replicate 16 [mac / 2 ^ 40 % 2 ^ 8, mac / 2 ^ 32 % 2 ^ 8, mac / 2 ^ 24 % 2 ^ 8,
        mac / 2 ^ 16 % 2 ^ 8, mac / 2 ^ 8 % 2 ^ 8, mac % 2 ^ 8]).flatten := by
    intro mac
    simp [wolPacket, wolFillLoop, GET_BYTE_0_eq, GET_BYTE_1_eq, GET_BYTE_2_eq, GET_BYTE_3_eq,
      GET_BYTE_4_eq, GET_BYTE_5_eq, List.replicate, List.set]
  intro mac
  exact ⟨by rw [hgen]; rfl, hgen mac, by rw [hgen]; norm_num,
    fun env wolP ip port m a pb d hmem => posix_sendto_payload env wolP ip port m a pb d hmem,
    fun env wolP ip port m a pb d hmem => win_sendto_payload env wolP ip port m a pb d hmem⟩

theorem win_ip_fail_eq (env : EnvWin) (wolP : Bool) (ip mac : List Char) (port : Nat)
    (h : ip_cstr_to_number ip 13 0 = -1) :
    wake_on_lan_win env wolP ip port mac =
      (WAKE_ON_LAN_ERRORS_IP,
        [Event.ipParse] ++ wolWrite wolP (Event.writeLastError (-1)) ++ [Event.wsaCleanup] ++
          wolWrite wolP (Event.writeReturn WAKE_ON_LAN_ERRORS_IP)) := by
  simp [wake_on_lan_win, finishWin, h]

theorem posix_ip_fail_eq (env : EnvPosix) (wolP : Bool) (ip mac : List Char) (port : Nat)
    (h : ip_cstr_to_number ip 13 0 = -1) :
    wake_on_lan_posix env wolP ip port mac =
      (WAKE_ON_LAN_ERRORS_IP,
        [Event.ipParse] ++ wolWrite wolP (Event.writeLastError (-1)) ++ [Event.close] ++
          wolWrite wolP (Event.writeReturn WAKE_ON_LAN_ERRORS_IP)) := by
  simp [wake_on_lan_posix, finishPosix, h]

theorem win_mac_fail_eq (env : EnvWin) (wolP : Bool) (ip mac : List Char) (port : Nat)
    (h : ip_cstr_to_number ip 13 0 ≠ -1) (h2 : mac_cstr_to_number mac = -1) :
    wake_on_lan_win env wolP ip port mac =
      (WAKE_ON_LAN_ERRORS_MAC,
        [Event.ipParse] ++ wolWrite wolP (Event.writeIp (uint32OfInt (ip_cstr_to_number ip 13 0)))
          ++ [Event.macParse] ++ wolWrite wolP (Event.writeLastError (-1)) ++ [Event.wsaCleanup]
          ++ wolWrite wolP (Event.writeReturn WAKE_ON_LAN_ERRORS_MAC)) := by
  simp [wake_on_lan_win, finishWin, h, h2]

theorem posix_mac_fail_eq (env : EnvPosix) (wolP : Bool) (ip mac : List Char) (port : Nat)
    (h : ip_cstr_to_number ip 13 0 ≠ -1) (h2 : mac_cstr_to_number mac = -1) :
    wake_on_lan_posix env wolP ip port mac =
      (WAKE_ON_LAN_ERRORS_MAC,
        [Event.ipParse] ++ wolWrite wolP (Event.writeIp (uint32OfInt (ip_cstr_to_number ip 13 0)))
          ++ [Event.macParse] ++ wolWrite wolP (Event.writeLastError (-1)) ++ [Event.close]
          ++ wolWrite wolP (Event.writeReturn WAKE_ON_LAN_ERRORS_MAC)) := by
  simp [wake_on_lan_posix, finishPosix, h, h2]

set_option maxHeartbeats 1000000 in
theorem win_ok_prefix (env : EnvWin) (ip mac : List Char) (port : Nat)
    (h : ip_cstr_to_number ip 13 0 ≠ -1) (h2 : mac_cstr_to_number mac ≠ -1) :
    ∃ rest, (wake_on_lan_win env true ip port mac).2 =
      Event.ipParse :: Event.writeIp (uint32OfInt (ip_cstr_to_number ip 13 0)) ::
        Event.macParse :: Event.writeMac (mac_cstr_to_number mac) :: rest := by
  simp only [wake_on_lan_win, finishWin, wolWrite, if_true]
  simp only [h, h2, if_false]
  by_cases h8 : env.closeFails = true <;> (try simp [h8])
  all_goals rcases eq_or_ne env.wsaStartupResult 0 with h3 | h3 <;> (try simp [h3])
  all_goals
    by_cases hv : env.wVersion % 256 ≠ 2 ∨ env.wVersion / 256 % 256 ≠ 2 <;> (try simp [hv])
  all_goals by_cases h5 : env.socketOk = false <;> (try simp [h5])
  all_goals by_cases h6 : env.setsockoptFails = true <;> (try simp [h6])
  all_goals rcases eq_or_ne env.sendtoResult (-1) with h7 | h7 <;> (try simp [h7])

set_option maxHeartbeats 1000000 in
theorem posix_ok_prefix (env : EnvPosix) (ip mac : List Char) (port : Nat)
    (h : ip_cstr_to_number ip 13 0 ≠ -1) (h2 : mac_cstr_to_number mac ≠ -1) :
    ∃ rest, (wake_on_lan_posix env true ip port mac).2 =
      Event.ipParse :: Event.writeIp (uint32OfInt (ip_cstr_to_number ip 13 0)) ::
        Event.macParse :: Event.writeMac (mac_cstr_to_number mac) :: rest := by
  simp only [wake_on_lan_posix, finishPosix, wolWrite, if_true]
  simp only [h, h2, if_false]
  by_cases h5 : env.socketOk = false <;> (try simp [h5])
  all_goals by_cases h6 : env.setsockoptFails = true <;> (try simp [h6])
  all_goals rcases lt_or_le env.sendtoResult 0 with h7 | h7 <;>
    (try simp [h7]) <;> (try simp [not_lt.2 h7])

set_option maxHeartbeats 1000000 in
theorem win_last_write (env : EnvWin) (ip mac : List Char) (port : Nat) :
    (wake_on_lan_win env true ip port mac).2.getLast? =
      some (Event.writeReturn (wake_on_lan_win env true ip port mac).1) := by
  simp only [wake_on_lan_win, finishWin, wolWrite, if_true]
  by_cases h8 : env.closeFails = true <;> (try simp [h8])
  all_goals rcases eq_or_ne (ip_cstr_to_number ip 13 0) (-1) with h1 | h1 <;>
    (try simp [h1])
  all_goals rcases eq_or_ne (mac_cstr_to_number mac) (-1) with h2 | h2 <;> (try simp [h2])
  all_goals rcases eq_or_ne env.wsaStartupResult 0 with h3 | h3 <;> (try simp [h3])
  all_goals
    by_cases hv : env.wVersion % 256 ≠ 2 ∨ env.wVersion / 256 % 256 ≠ 2 <;> (try simp [hv])
  all_goals by_cases h5 : env.socketOk = false <;> (try simp [h5])
  all_goals by_cases h6 : env.setsockoptFails = true <;> (try simp [h6])
  all_goals rcases eq_or_ne env.sendtoResult (-1) with h7 | h7 <;> (try simp [h7])

set_option maxHeartbeats 1000000 in
theorem posix_last_write (env : EnvPosix) (ip mac : List Char) (port : Nat) :
    (wake_on_lan_posix env true ip port mac).2.getLast? =
      some (Event.writeReturn (wake_on_lan_posix env true ip port mac).1) := by
  simp only [wake_on_lan_posix, finishPosix, wolWrite, if_true]
  rcases eq_or_ne (ip_cstr_to_number ip 13 0) (-1) with h1 | h1 <;> (try simp [h1])
  all_goals rcases eq_or_ne (mac_cstr_to_number mac) (-1) with h2 | h2 <;> (try simp [h2])
  all_goals by_cases h5 : env.socketOk = false <;> (try simp [h5])
  all_goals by_cases h6 : env.setsockoptFails = true <;> (try simp [h6])
  all_goals rcases lt_or_le env.sendtoResult 0 with h7 | h7 <;>
    (try simp [h7]) <;> (try simp [not_lt.2 h7])

/-! Concrete inputs and environments used in examples and witnesses. -/

/-- The characters of the string 1.2.3.4 . -/
def ipExample : List Char := ['1', '.', '2', '.', '3', '.', '4']

/-- The characters of the string AABBCCDDEEFF . -/
def macExample : List Char := ['A', 'A', 'B', 'B', 'C', 'C', 'D', 'D', 'E', 'E', 'F', 'F']

/-- A POSIX environment in which every socket call succeeds and `sendto`
reports the full 102 bytes. -/
def envPosixOk : EnvPosix :=
  { socketOk := true, socketErrno := 0, setsockoptFails := false, setsockoptErrno := 0,
    sendtoResult := 102 }

/-- A POSIX environment in which `sendto` reports only 50 of the 102 bytes
transmitted (a nonnegative short transfer). -/
def envPosixShort : EnvPosix :=
  { socketOk := true, socketErrno := 0, setsockoptFails := false, setsockoptErrno := 0,
    sendtoResult := 50 }

/-- A Windows environment in which every call succeeds (`wVersion` 0x0202 is
the negotiated Winsock 2.2) and `closesocket` succeeds. -/
def envWinOk : EnvWin :=
  { wsaStartupResult := 0, wsaStartupError := 0, wVersion := 514, socketOk := true,
    socketError := 0, setsockoptFails := false, setsockoptError := 0, sendtoResult := 102,
    sendtoError := 0, closeFails := false, closeError := 0 }

/-- A Windows environment in which everything up to and including the send
succeeds but `closesocket` fails. -/
def envWinCloseFail : EnvWin :=
  { wsaStartupResult := 0, wsaStartupError := 0, wVersion := 514, socketOk := true,
    socketError := 0, setsockoptFails := false, setsockoptError := 0, sendtoResult := 102,
    sendtoError := 0, closeFails := true, closeError := 10093 }

theorem ipExample_eval : ip_cstr_to_number ipExample 13 0 = 16909060 := by
  simp +decide [ipExample, ip_cstr_to_number, ipLoop, strtoumaxFrom, scanDigits, clampU,
    charAt, digitVal, nulChar, UINTMAX_MAX]

theorem macExample_eval : mac_cstr_to_number macExample = 187723572702975 := by
  simp +decide [macExample, mac_cstr_to_number, macLoop, charAt, nulChar]

set_option maxHeartbeats 1000000 in
/-- C2: for every ip_text on which the IPv4 parser fails and every mac_text,
both builds of wake_on_lan return the IP result code, the MAC parser is never
invoked and the mac field of a supplied diagnostics record is never written;
more generally, when a record is supplied, the parsed IP and parsed MAC fields
are populated (trace prefix ipParse, writeIp, macParse, writeMac) before any
forward socket step executes, and the last event of every call writes the
final result code into the return_value field. -/
theorem c2_diagnostics :
    ∀ (env : EnvWin) (envP : EnvPosix) (wolP : Bool) (ip mac : List Char) (port : Nat),
      (ip_cstr_to_number ip 13 0 = -1 →
        (wake_on_lan_win env wolP ip port mac).1 = WAKE_ON_LAN_ERRORS_IP ∧
        (wake_on_lan_posix envP wolP ip port mac).1 = WAKE_ON_LAN_ERRORS_IP ∧
        Event.macParse ∉ (wake_on_lan_win env wolP ip port mac).2 ∧
        Event.macParse ∉ (wake_on_lan_posix envP wolP ip port mac).2 ∧
        (∀ v, Event.writeMac v ∉ (wake_on_lan_win env wolP ip port mac).2) ∧
        (∀ v, Event.writeMac v ∉ (wake_on_lan_posix envP wolP ip port mac).2)) ∧
      (wolP = true →
        (∀ e ∈ (wake_on_lan_win env wolP ip port mac).2, isFwdSocketStep e = true →
          (wake_on_lan_win env wolP ip port mac).2.take 4 =
            [Event.ipParse, Event.writeIp (uint32OfInt (ip_cstr_to_number ip 13 0)),
              Event.macParse, Event.writeMac (mac_cstr_to_number mac)]) ∧
        (∀ e ∈ (wake_on_lan_posix envP wolP ip port mac).2, isFwdSocketStep e = true →
          (wake_on_lan_posix envP wolP ip port mac).2.take 4 =
            [Event.ipParse, Event.writeIp (uint32OfInt (ip_cstr_to_number ip 13 0)),
              Event.macParse, Event.writeMac (mac_cstr_to_number mac)]) ∧
        (wake_on_lan_win env wolP ip port mac).2.getLast? =
          some (Event.writeReturn (wake_on_lan_win env wolP ip port mac).1) ∧
        (wake_on_lan_posix envP wolP ip port mac).2.getLast? =
          some (Event.writeReturn (wake_on_lan_posix envP wolP ip port mac).1)) := by
  intro env envP wolP ip mac port
  constructor
  · intro h
    rw [win_ip_fail_eq env wolP ip mac port h, posix_ip_fail_eq envP wolP ip mac port h]
    refine ⟨rfl, rfl, ?_, ?_, ?_, ?_⟩ <;> cases wolP <;> simp [wolWrite]
  · intro hw
    subst hw
    refine ⟨?_, ?_, win_last_write env ip mac port, posix_last_write envP ip mac port⟩
    · intro e he hf
      rcases eq_or_ne (ip_cstr_to_number ip 13 0) (-1) with h1 | h1
      · rw [win_ip_fail_eq env true ip mac port h1] at he
        simp [wolWrite] at he
        rcases he with rfl | rfl | rfl | rfl <;> simp [isFwdSocketStep] at hf
      · rcases eq_or_ne (mac_cstr_to_number mac) (-1) with h2 | h2
        · rw [win_mac_fail_eq env true ip mac port h1 h2] at he
          simp [wolWrite] at he
          rcases he with rfl | rfl | rfl | rfl | rfl | rfl <;> simp [isFwdSocketStep] at hf
        · obtain ⟨rest, hr⟩ := win_ok_prefix env ip mac port h1 h2
          rw [hr]
          simp
    · intro e he hf
      rcases eq_or_ne (ip_cstr_to_number ip 13 0) (-1) with h1 | h1
      · rw [posix_ip_fail_eq envP true ip mac port h1] at he
        simp [wolWrite] at he
        rcases he with rfl | rfl | rfl | rfl <;> simp [isFwdSocketStep] at hf
      · rcases eq_or_ne (mac_cstr_to_number mac) (-1) with h2 | h2
        · rw [posix_mac_fail_eq envP true ip mac port h1 h2] at he
          simp [wolWrite] at he
          rcases he with rfl | rfl | rfl | rfl | rfl | rfl <;> simp [isFwdSocketStep] at hf
        · obtain ⟨rest, hr⟩ := posix_ok_prefix envP ip mac port h1 h2
          rw [hr]
          simp

set_option maxHeartbeats 1000000 in
/-- C5: on the Windows build, the close event occurs in the trace exactly when
the per-call socket was created (all steps up to socket creation succeeded);
whenever it was created and closesocket fails, the returned result code is
overwritten with SOCKET_CLOSE regardless of the earlier outcome, including
after a successful send; and WSACleanup is executed on every exit path. -/
theorem c5_close_and_cleanup :
    ∀ (env : EnvWin) (wolP : Bool) (ip mac : List Char) (port : Nat),
      (Event.close ∈ (wake_on_lan_win env wolP ip port mac).2 ↔
        (ip_cstr_to_number ip 13 0 ≠ -1 ∧ mac_cstr_to_number mac ≠ -1 ∧
          env.wsaStartupResult = 0 ∧ env.wVersion % 256 = 2 ∧ env.wVersion / 256 % 256 = 2 ∧
          env.socketOk = true)) ∧
      ((ip_cstr_to_number ip 13 0 ≠ -1 ∧ mac_cstr_to_number mac ≠ -1 ∧
          env.wsaStartupResult = 0 ∧ env.wVersion % 256 = 2 ∧ env.wVersion / 256 % 256 = 2 ∧
          env.socketOk = true) → env.closeFails = true →
        (wake_on_lan_win env wolP ip port mac).1 = WAKE_ON_LAN_ERRORS_SOCKET_CLOSE) ∧
      Event.wsaCleanup ∈ (wake_on_lan_win env wolP ip port mac).2 := by
  intro env wolP ip mac port
  cases wolP <;>
    simp only [wake_on_lan_win, finishWin, wolWrite, if_true, if_false,
      Bool.false_eq_true, Bool.true_eq_false, List.append_nil, List.nil_append]
  all_goals by_cases h8 : env.closeFails = true <;> (try simp [h8])
  all_goals rcases eq_or_ne (ip_cstr_to_number ip 13 0) (-1) with h1 | h1 <;>
    (try simp [h1])
  all_goals rcases eq_or_ne (mac_cstr_to_number mac) (-1) with h2 | h2 <;> (try simp [h2])
  all_goals rcases eq_or_ne env.wsaStartupResult 0 with h3 | h3 <;> (try simp [h3])
  all_goals by_cases hva : env.wVersion % 256 = 2 <;> (try simp [hva])
  all_goals by_cases hvb : env.wVersion / 256 % 256 = 2 <;> (try simp [hvb])
  all_goals by_cases h5 : env.socketOk = false <;>
    (try simp [h5, Bool.not_eq_true, Bool.eq_false_iff] )
  all_goals by_cases h6 : env.setsockoptFails = true <;> (try simp [h6])
  all_goals rcases eq_or_ne env.sendtoResult (-1) with h7 | h7 <;> (try simp [h7])

set_option maxHeartbeats 1000000 in
/-- C8 (amended): once both parses, socket creation and the socket option
succeed, the result is SEND exactly when sendto reports failure (negative on
POSIX, -1 on Windows); a nonnegative short transfer is not detected. On
failure the POSIX build stores the sendto return value in last_error while
the Windows build stores WSAGetLastError(); the packet sent is one datagram
carrying the magic packet to (parsed_ip, port) in network byte order. -/
theorem c8_send_condition :
    ∀ (envP : EnvPosix) (env : EnvWin) (wolP : Bool) (ip mac : List Char) (port : Nat),
      ((ip_cstr_to_number ip 13 0 ≠ -1 ∧ mac_cstr_to_number mac ≠ -1 ∧
          envP.socketOk = true ∧ envP.setsockoptFails = false) →
        ((wake_on_lan_posix envP wolP ip port mac).1 = WAKE_ON_LAN_ERRORS_SEND ↔
          envP.sendtoResult < 0) ∧
        (envP.sendtoResult < 0 →
          Event.writeLastError envP.sendtoResult ∈ (wake_on_lan_posix envP true ip port mac).2) ∧
        Event.sendto (htonlBytes (uint32OfInt (ip_cstr_to_number ip 13 0)))
          (htonsBytes (port % 2 ^ 16)) (wolPacket (mac_cstr_to_number mac).toNat) ∈
          (wake_on_lan_posix envP wolP ip port mac).2) ∧
      ((ip_cstr_to_number ip 13 0 ≠ -1 ∧ mac_cstr_to_number mac ≠ -1 ∧
          env.wsaStartupResult = 0 ∧ env.wVersion % 256 = 2 ∧ env.wVersion / 256 % 256 = 2 ∧
          env.socketOk = true ∧ env.setsockoptFails = false ∧ env.closeFails = false) →
        ((wake_on_lan_win env wolP ip port mac).1 = WAKE_ON_LAN_ERRORS_SEND ↔
          env.sendtoResult = -1) ∧
        (env.sendtoResult = -1 →
          Event.writeLastError env.sendtoError ∈ (wake_on_lan_win env true ip port mac).2) ∧
        Event.sendto (htonlBytes (uint32OfInt (ip_cstr_to_number ip 13 0)))
          (htonsBytes (port % 2 ^ 16)) (wolPacket (mac_cstr_to_number mac).toNat) ∈
          (wake_on_lan_win env wolP ip port mac).2) := by
  intro envP env wolP ip mac port
  constructor
  · rintro ⟨hip, hmac, hso, hsso⟩
    simp only [wake_on_lan_posix, finishPosix, wolWrite]
    simp [hip, hmac, hso, hsso, WAKE_ON_LAN_ERRORS_SEND, WAKE_ON_LAN_ERRORS_NONE]
    rcases lt_or_le envP.sendtoResult 0 with h7 | h7 <;> cases wolP <;>
      simp [h7, not_lt.2 h7, Int.not_lt.2 h7]
  · rintro ⟨hip, hmac, h3, hva, hvb, h5, h6, h8⟩
    simp only [wake_on_lan_win, finishWin, wolWrite]
    simp [hip, hmac, h3, hva, hvb, h5, h6, h8, WAKE_ON_LAN_ERRORS_SEND, WAKE_ON_LAN_ERRORS_NONE]
    rcases eq_or_ne env.sendtoResult (-1) with h7 | h7 <;> cases wolP <;> simp [h7]

theorem abcExample_eval : ip_cstr_to_number ['a', 'b', 'c'] 13 0 = -1 := by
  simp +decide [ip_cstr_to_number, ipLoop, strtoumaxFrom, scanDigits, clampU, charAt,
    digitVal, nulChar, UINTMAX_MAX]

/-- C1 witness: the payload conjunct of C1 applied to a concrete POSIX call
whose trace contains the sendto event with the packet for AABBCCDDEEFF. -/
theorem c1_witness :
    wolPacket 187723572702975 = wolPacket (mac_cstr_to_number macExample).toNat := by
  have hmem : Event.sendto (htonlBytes (uint32OfInt (ip_cstr_to_number ipExample 13 0)))
      (htonsBytes (9 % 2 ^ 16)) (wolPacket 187723572702975) ∈
      (wake_on_lan_posix envPosixOk false ipExample 9 macExample).2 := by
    simp [wake_on_lan_posix, finishPosix, wolWrite, envPosixOk, ipExample_eval, macExample_eval]
  exact (c1_magic_packet 0).2.2.2.1 envPosixOk false ipExample 9 macExample _ _ _ hmem

/-- C2 witness: C2 applied to the failing IP text abc (result code IP) and
to a successful call (last trace event writes the return value). -/
theorem c2_witness :
    (wake_on_lan_win envWinOk true ['a', 'b', 'c'] 9 macExample).1 = WAKE_ON_LAN_ERRORS_IP ∧
    (wake_on_lan_posix envPosixOk true ipExample 9 macExample).2.getLast? =
      some (Event.writeReturn (wake_on_lan_posix envPosixOk true ipExample 9 macExample).1) :=
  ⟨((c2_diagnostics envWinOk envPosixOk true ['a', 'b', 'c'] macExample 9).1 abcExample_eval).1,
    ((c2_diagnostics envWinOk envPosixOk true ipExample macExample 9).2 rfl).2.2.2⟩

/-- C5 witness: C5 applied to an all-success Windows environment whose
closesocket fails after a full 102-byte send: the result is SOCKET_CLOSE. -/
theorem c5_witness :
    (wake_on_lan_win envWinCloseFail false ipExample 9 macExample).1 =
      WAKE_ON_LAN_ERRORS_SOCKET_CLOSE ∧ envWinCloseFail.sendtoResult = 102 :=
  ⟨(c5_close_and_cleanup envWinCloseFail false ipExample macExample 9).2.1
      ⟨by rw [ipExample_eval]; decide, by rw [macExample_eval]; decide, rfl, rfl, rfl, rfl⟩ rfl,
    rfl⟩

/-- C8 witness: C8 applied to all-success environments of both builds,
instantiating the send-failure equivalences. -/
theorem c8_witness :
    ((wake_on_lan_posix envPosixOk false ipExample 9 macExample).1 = WAKE_ON_LAN_ERRORS_SEND ↔
      envPosixOk.sendtoResult < 0) ∧
    ((wake_on_lan_win envWinOk false ipExample 9 macExample).1 = WAKE_ON_LAN_ERRORS_SEND ↔
      envWinOk.sendtoResult = -1) :=
  ⟨((c8_send_condition envPosixOk envWinOk false ipExample macExample 9).1
      ⟨by rw [ipExample_eval]; decide, by rw [macExample_eval]; decide, rfl, rfl⟩).1,
    ((c8_send_condition envPosixOk envWinOk false ipExample macExample 9).2
      ⟨by rw [ipExample_eval]; decide, by rw [macExample_eval]; decide, rfl, rfl, rfl, rfl,
        rfl, rfl⟩).1⟩

/-- C8 counterexample: with sendto reporting only 50 of the 102 bytes
transmitted (a nonnegative short transfer), the POSIX build returns NONE,
not SEND, although the complete buffer was not transmitted. -/
theorem c8_short_send_counterexample :
    envPosixShort.sendtoResult = 50 ∧ (50 : Int) < 102 ∧ (0 : Int) ≤ 50 ∧
    (wake_on_lan_posix envPosixShort true ipExample 9 macExample).1 =
      WAKE_ON_LAN_ERRORS_NONE ∧
    WAKE_ON_LAN_ERRORS_NONE ≠ WAKE_ON_LAN_ERRORS_SEND := by
  refine ⟨rfl, by norm_num, by norm_num, ?_, by decide⟩
  simp [wake_on_lan_posix, finishPosix, wolWrite, envPosixShort, ipExample_eval,
    macExample_eval]

theorem ipLoop_lt (s : List Char) (n base : Nat) :
    ∀ i (acc : List Nat), (∀ x ∈ acc, x < 2 ^ 32) → ∀ x ∈ ipLoop s n base i acc, x < 2 ^ 32 := by
  intro i acc
  induction i, acc using ipLoop.induct s n base with
  | case1 i acc hg hd hdot ih =>
    intro h
    rw [ipLoop, dif_pos hg, dif_pos hd, dif_pos hdot]
    refine ih ?_
    intro x hx
    rcases List.mem_append.1 hx with hx | hx
    · exact h x hx
    · simp at hx
      subst hx
      exact Nat.mod_lt _ (by norm_num)
  | case2 i acc hg hd hdot =>
    intro h x hx
    rw [ipLoop, dif_pos hg, dif_pos hd, dif_neg hdot] at hx
    rcases List.mem_append.1 hx with hx | hx
    · exact h x hx
    · simp at hx
      subst hx
      exact Nat.mod_lt _ (by norm_num)
  | case3 i acc hg hd ih =>
    intro h
    rw [ipLoop, dif_pos hg, dif_neg hd]
    exact ih h
  | case4 i acc hg =>
    intro h
    rw [ipLoop, dif_neg hg]
    exact h

theorem lor_of_lt (x k y : Nat) (hy : y < 2 ^ k) : x <<< k ||| y = x * 2 ^ k + y := by
  rw [Nat.shiftLeft_eq, Nat.mul_comm x (2 ^ k)]
  exact (Nat.mul_add_lt_is_or hy x).symm

theorem ipExample_loop_eval : ipLoop ipExample 13 0 0 [] = [1, 2, 3, 4] := by
  simp +decide [ipExample, ipLoop, strtoumaxFrom, scanDigits, clampU, charAt, digitVal,
    nulChar, UINTMAX_MAX]

set_option maxHeartbeats 1000000 in
/-- C3 (amended): the parser result depends only on the number of parts
collected, with additive uint32 assembly: failure (-1) holds iff no part was
collected, every success lies in [0, 2^32), a single part is stored verbatim,
and the OR formulas of the spec hold whenever the parts are small enough to
be carry-free (for example all parts at most 255). -/
theorem c3_part_count_assembly :
    ∀ (s : List Char) (n base : Nat),
      (ip_cstr_to_number s n base = -1 ↔ ipLoop s n base 0 [] = []) ∧
      (ip_cstr_to_number s n base ≠ -1 →
        0 ≤ ip_cstr_to_number s n base ∧ ip_cstr_to_number s n base < 2 ^ 32) ∧
      (∀ a b c d, ipLoop s n base 0 [] = [a, b, c, d] →
        a ≤ 255 → b ≤ 255 → c ≤ 255 → d ≤ 255 →
        ip_cstr_to_number s n base = ((a <<< 24 ||| b <<< 16 ||| c <<< 8 ||| d : Nat) : Int)) ∧
      (∀ a b c, ipLoop s n base 0 [] = [a, b, c] → a ≤ 255 → b ≤ 255 → c < 2 ^ 16 →
        ip_cstr_to_number s n base = ((a <<< 24 ||| b <<< 16 ||| c : Nat) : Int)) ∧
      (∀ a b, ipLoop s n base 0 [] = [a, b] → a ≤ 255 → b < 2 ^ 24 →
        ip_cstr_to_number s n base = ((a <<< 24 ||| b : Nat) : Int)) ∧
      (∀ a, ipLoop s n base 0 [] = [a] → ip_cstr_to_number s n base = ((a : Nat) : Int)) := by
  intro s n base
  have hlen := ipLoop_length_le s n base 0 [] (by simp)
  rcases hL : ipLoop s n base 0 [] with - | ⟨a, - | ⟨b, - | ⟨c, - | ⟨d, - | t⟩⟩⟩⟩ <;>
    rw [hL] at hlen <;> simp only [ip_cstr_to_number, hL] <;>
    [skip; skip; skip; skip; skip; (simp at hlen)]
  · refine ⟨by simp, by simp, by simp, by simp, by simp, by simp⟩
  · have ha32 : a < 2 ^ 32 := ipLoop_lt s n base 0 [] (by simp) a (by rw [hL]; simp)
    refine ⟨by constructor <;> intro h <;> [omega; simp at h], fun _ => ⟨by omega, by omega⟩,
      by simp, by simp, by simp, ?_⟩
    intro a' ha'
    simp at ha'
    subst ha'
    rfl
  · refine ⟨by constructor <;> intro h <;> [omega; simp at h], fun _ => ⟨by omega, by omega⟩,
      by simp, by simp, ?_, by simp⟩
    intro a' b' hab ha hb
    simp at hab
    obtain ⟨rfl, rfl⟩ := hab
    rw [lor_of_lt a 24 b (by omega)]
    have h1 : a * 2 ^ 24 % 2 ^ 32 = a * 2 ^ 24 := Nat.mod_eq_of_lt (by omega)
    rw [h1, Nat.mod_eq_of_lt (by omega)]
  · refine ⟨by constructor <;> intro h <;> [omega; simp at h], fun _ => ⟨by omega, by omega⟩,
      by simp, ?_, by simp, by simp⟩
    intro a' b' c' habc ha hb hc
    simp at habc
    obtain ⟨rfl, rfl, rfl⟩ := habc
    rw [Nat.lor_assoc, lor_of_lt b 16 c (by omega), lor_of_lt a 24 _ (by omega)]
    have h1 : a * 2 ^ 24 % 2 ^ 32 = a * 2 ^ 24 := Nat.mod_eq_of_lt (by omega)
    have h2 : b * 2 ^ 16 % 2 ^ 32 = b * 2 ^ 16 := Nat.mod_eq_of_lt (by omega)
    rw [h1, h2, Nat.mod_eq_of_lt (by omega)]
    push_cast
    ring
  · refine ⟨by constructor <;> intro h <;> [omega; simp at h], fun _ => ⟨by omega, by omega⟩,
      ?_, by simp, by simp, by simp⟩
    intro a' b' c' d' habcd ha hb hc hd
    simp at habcd
    obtain ⟨rfl, rfl, rfl, rfl⟩ := habcd
    rw [Nat.lor_assoc, Nat.lor_assoc, lor_of_lt c 8 d (by omega), lor_of_lt b 16 _ (by omega),
      lor_of_lt a 24 _ (by omega)]
    have h1 : a * 2 ^ 24 % 2 ^ 32 = a * 2 ^ 24 := Nat.mod_eq_of_lt (by omega)
    have h2 : b * 2 ^ 16 % 2 ^ 32 = b * 2 ^ 16 := Nat.mod_eq_of_lt (by omega)
    have h3 : c * 2 ^ 8 % 2 ^ 32 = c * 2 ^ 8 := Nat.mod_eq_of_lt (by omega)
    rw [h1, h2, h3, Nat.mod_eq_of_lt (by omega)]
    push_cast
    ring

/-- C3 counterexample: for input 1.256.0.1 the code assembles additively,
giving 33554433 = 0x02000001, while the claimed OR formula
(1<<24)|(256<<16)|(0<<8)|1 gives 16777217 = 0x01000001. -/
theorem c3_or_formula_counterexample :
    ipLoop ['1', '.', '2', '5', '6', '.', '0', '.', '1'] 13 0 0 [] = [1, 256, 0, 1] ∧
    ip_cstr_to_number ['1', '.', '2', '5', '6', '.', '0', '.', '1'] 13 0 = 33554433 ∧
    ((1 <<< 24 ||| 256 <<< 16 ||| 0 <<< 8 ||| 1 : Nat) : Int) = 16777217 ∧
    (33554433 : Int) ≠ 16777217 := by
  refine ⟨?_, ?_, by decide, by decide⟩ <;>
    simp +decide [ip_cstr_to_number, ipLoop, strtoumaxFrom, scanDigits, clampU, charAt,
      digitVal, nulChar, UINTMAX_MAX]

/-- C3 witness: the amended theorem applied to the concrete input 1.2.3.4,
whose four parts are carry-free. -/
theorem c3_witness :
    ip_cstr_to_number ipExample 13 0 = ((1 <<< 24 ||| 2 <<< 16 ||| 3 <<< 8 ||| 4 : Nat) : Int) :=
  (c3_part_count_assembly ipExample 13 0).2.2.1 1 2 3 4 ipExample_loop_eval
    (by decide) (by decide) (by decide) (by decide)

/-- C7: the IPv4 parser never validates that a part is at most 255: failure
(-1) happens only when zero parts were collected, never because of an
oversized part; for 1.256.0.1 the oversized 256 carries into byte 3 of the
additive result 33554433 = 2*2^24 + 1, and the oversized single part
4294967297 wraps around to 1 modulo 2^32. -/
theorem c7_no_range_validation :
    (∀ (s : List Char) (n base : Nat),
      ip_cstr_to_number s n base = -1 → ipLoop s n base 0 [] = []) ∧
    ipLoop ['1', '.', '2', '5', '6', '.', '0', '.', '1'] 13 0 0 [] = [1, 256, 0, 1] ∧
    ip_cstr_to_number ['1', '.', '2', '5', '6', '.', '0', '.', '1'] 13 0 = 33554433 ∧
    (33554433 : Nat) = 2 * 2 ^ 24 + 0 * 2 ^ 16 + 0 * 2 ^ 8 + 1 ∧
    ip_cstr_to_number ['4', '2', '9', '4', '9', '6', '7', '2', '9', '7'] 13 0 = 1 := by
  refine ⟨?_, ?_, ?_, by norm_num, ?_⟩
  · intro s n base h
    have hlen := ipLoop_length_le s n base 0 [] (by simp)
    rcases hL : ipLoop s n base 0 [] with - | ⟨a, - | ⟨b, - | ⟨c, - | ⟨d, - | t⟩⟩⟩⟩ <;>
      rw [hL] at hlen <;> simp only [ip_cstr_to_number, hL] at h <;> first
        | rfl
        | omega
        | (simp at hlen)
  all_goals
    simp +decide [ip_cstr_to_number, ipLoop, strtoumaxFrom, scanDigits, clampU, charAt,
      digitVal, nulChar, UINTMAX_MAX]

/-- C7 witness: the universal part of C7 applied to the failing input abc,
concluding that its part list is empty. -/
theorem c7_witness : ipLoop ['a', 'b', 'c'] 13 0 0 [] = [] :=
  c7_no_range_validation.1 ['a', 'b', 'c'] 13 0 abcExample_eval
/-- C4 counterexample: the input AABBCCDDEEFF0 contains 13 hex digits within
its first 17 characters, yet mac_cstr_to_number succeeds with the value of the
first 12 digits instead of failing. -/
theorem c4_extra_digits_counterexample :
    (hexDigitsFrom ['A', 'A', 'B', 'B', 'C', 'C', 'D', 'D', 'E', 'E', 'F', 'F', '0'] 0).length
      = 13 ∧
    mac_cstr_to_number ['A', 'A', 'B', 'B', 'C', 'C', 'D', 'D', 'E', 'E', 'F', 'F', '0'] =
      187723572702975 ∧
    (187723572702975 : Int) ≠ -1 := by
  refine ⟨?_, ?_, by decide⟩
  · simp +decide [hexDigitsFrom, charAt, nulChar]
  · simp +decide [mac_cstr_to_number, macLoop, charAt, nulChar]

set_option maxHeartbeats 1000000 in
/-- C4 (amended): the MAC parser fails iff fewer than 12 hex digits appear
among the scanned characters (at most 17, up to NUL); on success the value is
the fold of the first 12 hex digit values, first digit most significant,
case-insensitively; FF:FF:FF:FF:FF:FF and AABBCCDDEEFF (and its lowercase
form) parse to the expected values and AA:BB fails. Extra hex digits beyond
the 12th are ignored, not an error. -/
theorem c4_mac_digit_count :
    ∀ s : List Char,
      (mac_cstr_to_number s = -1 ↔ (hexDigitsFrom s 0).length < 12) ∧
      (12 ≤ (hexDigitsFrom s 0).length →
        mac_cstr_to_number s =
          ((((hexDigitsFrom s 0).take 12).foldl (fun a d => a * 16 + d) 0 : Nat) : Int)) ∧
      mac_cstr_to_number
        ['F', 'F', ':', 'F', 'F', ':', 'F', 'F', ':', 'F', 'F', ':', 'F', 'F', ':', 'F', 'F'] =
        0xFFFFFFFFFFFF ∧
      mac_cstr_to_number macExample = 0xAABBCCDDEEFF ∧
      mac_cstr_to_number ['a', 'a', 'b', 'b', 'c', 'c', 'd', 'd', 'e', 'e', 'f', 'f'] =
        0xAABBCCDDEEFF ∧
      mac_cstr_to_number ['A', 'A', ':', 'B', 'B'] = -1 := by
  intro s
  have hm := macLoop_eq s 0 0 0 (by omega)
  have hdef : mac_cstr_to_number s =
      if min 12 (0 + (hexDigitsFrom s 0).length) ≠ 12 then (-1 : Int)
      else ((((hexDigitsFrom s 0).take 12).foldl (fun a d => a * 16 + d) 0 : Nat) : Int) := by
    rw [mac_cstr_to_number, hm]
  refine ⟨?_, ?_, ?_, ?_, ?_, ?_⟩
  · rw [hdef]
    split_ifs with hc
    · constructor <;> intro h <;> omega
    · constructor
      · intro h
        simp at h
      · intro h
        omega
  · intro hl
    rw [hdef, if_neg (by omega)]
  all_goals simp +decide [mac_cstr_to_number, macLoop, macExample, charAt, nulChar]

/-- C4 witness: the amended theorem applied to AABBCCDDEEFF, whose scan
yields exactly 12 hex digits. -/
theorem c4_witness :
    mac_cstr_to_number macExample =
      ((((hexDigitsFrom macExample 0).take 12).foldl (fun a d => a * 16 + d) 0 : Nat) : Int) :=
  (c4_mac_digit_count macExample).2.1
    (by simp +decide [hexDigitsFrom, macExample, charAt, nulChar])

/-- C6 counterexample: 192.168.178.255 parses to 3232281343, not the decimal
3232286975 stated by the spec (which is 0xC0A8C8FF, i.e. 192.168.200.255). -/
theorem c6_decimal_counterexample :
    ip_cstr_to_number
      ['1', '9', '2', '.', '1', '6', '8', '.', '1', '7', '8', '.', '2', '5', '5'] 13 0 =
      3232281343 ∧
    (3232281343 : Int) ≠ 3232286975 := by
  refine ⟨?_, by decide⟩
  simp +decide [ip_cstr_to_number, ipLoop, strtoumaxFrom, scanDigits, clampU, charAt,
    digitVal, nulChar, UINTMAX_MAX]

/-- C6 (amended): 192.168.178.255 parses to 3232281343, which is the stated
hex value 0xC0A8B2FF; 10.1 parses to 10<<24 + 1 = 167772161; the digitless
input abc yields the failure sentinel -1. -/
theorem c6_parser_examples :
    ip_cstr_to_number
      ['1', '9', '2', '.', '1', '6', '8', '.', '1', '7', '8', '.', '2', '5', '5'] 13 0 =
      3232281343 ∧
    (3232281343 : Nat) = 0xC0A8B2FF ∧
    ip_cstr_to_number ['1', '0', '.', '1'] 13 0 = 167772161 ∧
    (167772161 : Nat) = 10 * 2 ^ 24 + 1 ∧
    ip_cstr_to_number ['a', 'b', 'c'] 13 0 = -1 := by
  refine ⟨?_, by norm_num, ?_, by norm_num, abcExample_eval⟩ <;>
    simp +decide [ip_cstr_to_number, ipLoop, strtoumaxFrom, scanDigits, clampU, charAt,
      digitVal, nulChar, UINTMAX_MAX]

/-- The argv of the invocation wol -i 1.2.3.4 -m AABBCCDDEEFF . -/
def argvExample : List (List Char) :=
  [['w', 'o', 'l'], ['-', 'i'], ipExample, ['-', 'm'], macExample]

set_option maxHeartbeats 1000000 in
/-- C9: the claim says the process exit code is 1 when help was shown or a
required parameter is missing and otherwise equals the ResultCode of the core
sender. The code violates the second half: because the declaration at
src/WakeOnLan.c line 104 shadows the outer return_value, wol_main returns 1
for every argv and every core result, including a successful invocation with
both -i and -m present and core result 0. -/
theorem c9_exit_code_bug :
    (∀ (argv : List (List Char)) (coreResult : Nat), wol_main argv coreResult = 1) ∧
    (cliLoop argvExample 0 cliInit).parameter_i = true ∧
    (cliLoop argvExample 0 cliInit).parameter_m = true ∧
    (cliLoop argvExample 0 cliInit).help = false ∧
    wol_main argvExample 0 = 1 ∧
    (1 : Nat) ≠ WAKE_ON_LAN_ERRORS_NONE := by
  refine ⟨fun argv coreResult => by simp [wol_main], ?_, ?_, ?_, by simp [wol_main], by decide⟩
  all_goals
    simp +decide [cliLoop, cliInit, argvExample, argAt, charAt, nulChar, ipExample, macExample]

theorem posix_writeIp_eq (env : EnvPosix) (wolP : Bool) (ip mac : List Char) (port : Nat)
    (v : Nat) (hmem : Event.writeIp v ∈ (wake_on_lan_posix env wolP ip port mac).2) :
    v = uint32OfInt (ip_cstr_to_number ip 13 0) := by
  simp only [wake_on_lan_posix, finishPosix, wolWrite] at hmem
  split_ifs at hmem <;> cases wolP <;> simp at hmem <;> (try exact hmem)

set_option maxHeartbeats 1000000 in
theorem win_writeIp_eq (env : EnvWin) (wolP : Bool) (ip mac : List Char) (port : Nat)
    (v : Nat) (hmem : Event.writeIp v ∈ (wake_on_lan_win env wolP ip port mac).2) :
    v = uint32OfInt (ip_cstr_to_number ip 13 0) := by
  cases wolP <;>
    simp only [wake_on_lan_win, finishWin, wolWrite, if_true, if_false,
      Bool.false_eq_true, Bool.true_eq_false, List.append_nil, List.nil_append] at hmem
  all_goals by_cases h8 : env.closeFails = true <;> (try simp [h8] at hmem)
  all_goals rcases eq_or_ne (ip_cstr_to_number ip 13 0) (-1) with h1 | h1 <;>
    (try simp [h1] at hmem)
  all_goals rcases eq_or_ne (mac_cstr_to_number mac) (-1) with h2 | h2 <;>
    (try simp [h2] at hmem)
  all_goals rcases eq_or_ne env.wsaStartupResult 0 with h3 | h3 <;> (try simp [h3] at hmem)
  all_goals
    by_cases hv : env.wVersion % 256 ≠ 2 ∨ env.wVersion / 256 % 256 ≠ 2 <;>
      (try simp [hv] at hmem)
  all_goals by_cases h5 : env.socketOk = false <;> (try simp [h5] at hmem)
  all_goals by_cases h6 : env.setsockoptFails = true <;> (try simp [h6] at hmem)
  all_goals rcases eq_or_ne env.sendtoResult (-1) with h7 | h7 <;> (try simp [h7] at hmem)
  all_goals exact hmem

set_option maxHeartbeats 1000000 in
/-- C10: wake_on_lan invokes the IPv4 parser with the fixed maximum scan
length 13 (the value written into the diagnostics ip field is always
ip_cstr_to_number ip_text 13 0, on both builds); every collected part starts
at an index below the bound (instrumented loop ipLoopS, whose value
projection is ipLoop); and the 16-character dotted quad 1000.1000.1000.5
silently loses its trailing part, parsing as the 3 parts 1000,1000,1000. -/
theorem c10_scan_limit :
    (∀ (s mac : List Char) (env : EnvPosix) (envW : EnvWin) (wolP : Bool) (port v : Nat),
      (Event.writeIp v ∈ (wake_on_lan_posix env wolP s port mac).2 →
        v = uint32OfInt (ip_cstr_to_number s 13 0)) ∧
      (Event.writeIp v ∈ (wake_on_lan_win envW wolP s port mac).2 →
        v = uint32OfInt (ip_cstr_to_number s 13 0))) ∧
    (∀ s : List Char, ∀ p ∈ ipLoopS s 13 0 0 [], p.1 < 13) ∧
    (∀ s : List Char, (ipLoopS s 13 0 0 []).map Prod.snd = ipLoop s 13 0 0 []) ∧
    ipLoop ['1', '0', '0', '0', '.', '1', '0', '0', '0', '.', '1', '0', '0', '0', '.', '5']
      13 0 0 [] = [1000, 1000, 1000] ∧
    ip_cstr_to_number
      ['1', '0', '0', '0', '.', '1', '0', '0', '0', '.', '1', '0', '0', '0', '.', '5'] 13 0 =
      3957851112 := by
  refine ⟨fun s mac env envW wolP port v =>
      ⟨posix_writeIp_eq env wolP s mac port v, win_writeIp_eq envW wolP s mac port v⟩,
    fun s => ipLoopS_starts s 13 0 0 [] (by simp),
    fun s => by rw [ipLoopS_map]; rfl, ?_, ?_⟩
  all_goals
    simp +decide [ip_cstr_to_number, ipLoop, strtoumaxFrom, scanDigits, clampU, charAt,
      digitVal, nulChar, UINTMAX_MAX]

/-- C10 witness: part one of C10 applied to a concrete all-success POSIX
call on 1.2.3.4, whose trace contains the writeIp event for 16909060. -/
theorem c10_witness : (16909060 : Nat) = uint32OfInt (ip_cstr_to_number ipExample 13 0) :=
  (c10_scan_limit.1 ipExample macExample envPosixOk envWinOk true 9 16909060).1
    (by simp [wake_on_lan_posix, finishPosix, wolWrite, envPosixOk, ipExample_eval,
      macExample_eval, uint32OfInt])

end WOL
